import Mathlib

/-!
Verification of the grngo schema-resolution and typed value-marshaling layer
(`grngo.go`), shallowly embedded in Lean 4.

The embedding follows the Go source function by function.  The native store
(Groonga, reached through cgo in the source) is outside the Go file; where one
of its primitives decides a property, the primitive is modelled from the
specification and marked `Modelled from the spec:` in its doc comment.  Go's
unbounded recursion through reference chains is embedded with an explicit fuel
parameter; running out of fuel is reported as a distinguished error.
-/

deriving instance DecidableEq for Except

namespace Grngo

/-- The closed enumeration of primitive store types (grngo.go 32-52). -/
inductive DataType where
  | Void
  | Bool
  | Int8
  | Int16
  | Int32
  | Int64
  | UInt8
  | UInt16
  | UInt32
  | UInt64
  | Float
  | Time
  | ShortText
  | Text
  | LongText
  | TokyoGeoPoint
  | WGS84GeoPoint
  deriving DecidableEq, Repr

/-- Geographic point carried by the layer (grngo.go 28).  Latitude and
longitude are int32 in the source; the values are carried, never computed
with, so plain `Int` is used. -/
structure GeoPoint where
  latitude : Int
  longitude : Int
  deriving DecidableEq, Repr

/-- Go `float64` values are carried untouched by this layer (never inspected
or computed with); they are modelled as an uninterpreted bit pattern. -/
structure GFloat where
  bits : Nat
  deriving DecidableEq, Repr

/-- The sentinel row id `GRN_ID_NIL` (grngo.go 30). -/
def NilID : Nat := 0

/-- Association-list lookup, standing in for Go map reads.  Insertion is
modelled by consing, which shadows older entries exactly like a map write. -/
def alookup {α β : Type} [DecidableEq α] : List (α × β) → α → Option β
  | [], _ => none
  | (k, v) :: rest, a => if a = k then some v else alookup rest a

/-- Error outcomes of the layer (each `fmt.Errorf` site in the source is
mapped to a constructor; `noFuel` is the embedding artifact for Go's
unbounded recursion through reference chains). -/
inductive GrnError where
  | tableNotFound (name : String)
  | referenceToVoid (name : String)
  | columnLookupFailed (name : String)
  | notTableReference (columnName : String)
  | vectorOfVector
  | keyTypeConflict
  | valueTypeConflict
  | nativeFailure (call : String)
  | invalidCommand
  | invalidOption (key : String)
  | noFuel
  deriving DecidableEq, Repr

/-- The `grngo_type_info` descriptor returned by the native schema getters:
primitive type, dimension (vector when positive), and the referenced table's
name when the type is a table reference. -/
structure TypeInfo where
  dataType : DataType
  dimension : Nat
  refTable : Option String
  deriving DecidableEq, Repr

/-- A native table object's key and value descriptors. -/
structure NativeTable where
  keyInfo : TypeInfo
  valueInfo : TypeInfo
  deriving DecidableEq, Repr

/-- Modelled from the spec: the native schema oracle behind
`grngo_find_table`, `grngo_table_get_key_info`, `grngo_table_get_value_info`,
`grn_obj_column` and `grngo_column_get_value_info` (C layer, not part of the
Go source).  `tables name` is the table object found by name; `columns t c`
is the value descriptor of column `c` of table `t` (`some` also means that
the native column object exists, as with the three pseudo-columns). -/
structure NativeSchema where
  tables : String → Option NativeTable
  columns : String → String → Option TypeInfo

/-- The resolved Table handle (grngo.go 543-552).  In Go `keyTable` and
`valueTable` are pointers to the referenced resolved tables; here they hold
the referenced tables' names, under which resolution caches them. -/
structure Table where
  name : String
  keyType : DataType
  keyTable : Option String
  valueType : DataType
  valueTable : Option String
  deriving DecidableEq, Repr

/-- The resolved Column handle (grngo.go 867-874), owning table recorded by
name. -/
structure Column where
  tableName : String
  name : String
  valueType : DataType
  isVector : Bool
  valueTable : Option String
  deriving DecidableEq, Repr

/-- The mutable caches owned by a DB handle: `DB.tables` (grngo.go 236) and
every table's `columns` map (grngo.go 551), the latter keyed here by
(table name, column name). -/
structure DBState where
  tables : List (String × Table)
  columns : List ((String × String) × Column)
  deriving DecidableEq, Repr

/-- DB.FindTable (grngo.go 447-511): cache check, native lookup, recursive
resolution of key/value reference tables (rejecting a reference whose
declared primitive type is Void), then cache insertion.  The fuel bounds the
recursion that is unbounded in Go. -/
def FindTable (schema : NativeSchema) : Nat → DBState → String → Except GrnError Table × DBState
  | 0, db, name =>
    (match alookup db.tables name with
     | some table => (.ok table, db)
     | none => (.error .noFuel, db))
  | fuel + 1, db, name =>
    match alookup db.tables name with
    | some table => (.ok table, db)
    | none =>
      match schema.tables name with
      | none => (.error (.tableNotFound name), db)
      | some native =>
        let keyStep : Except GrnError (Option String) × DBState :=
          match native.keyInfo.refTable with
          | none => (.ok none, db)
          | some keyRef =>
            if native.keyInfo.dataType = .Void then (.error (.referenceToVoid name), db)
            else
              match FindTable schema fuel db keyRef with
              | (.error e, db1) => (.error e, db1)
              | (.ok _, db1) => (.ok (some keyRef), db1)
        match keyStep with
        | (.error e, db1) => (.error e, db1)
        | (.ok keyTable, db1) =>
          let valueStep : Except GrnError (Option String) × DBState :=
            match native.valueInfo.refTable with
            | none => (.ok none, db1)
            | some valueRef =>
              if native.valueInfo.dataType = .Void then (.error (.referenceToVoid name), db1)
              else
                match FindTable schema fuel db1 valueRef with
                | (.error e, db2) => (.error e, db2)
                | (.ok _, db2) => (.ok (some valueRef), db2)
          match valueStep with
          | (.error e, db2) => (.error e, db2)
          | (.ok valueTable, db2) =>
            let table : Table :=
              ⟨name, native.keyInfo.dataType, keyTable, native.valueInfo.dataType, valueTable⟩
            (.ok table, { db2 with tables := (name, table) :: db2.tables })

/-- Table.findColumn (grngo.go 764-818): cache check, native column lookup,
the three pseudo-columns reusing the owning table's type info, and for
ordinary columns the value descriptor with recursive resolution of a
reference table (rejecting reference-to-void), then cache insertion. -/
def findColumn (schema : NativeSchema) (fuel : Nat) (db : DBState) (table : Table)
    (name : String) : Except GrnError Column × DBState :=
  match alookup db.columns (table.name, name) with
  | some column => (.ok column, db)
  | none =>
    match schema.columns table.name name with
    | none => (.error (.columnLookupFailed name), db)
    | some valueInfo =>
      if name = "_id" then
        let column : Column := ⟨table.name, name, .UInt32, false, none⟩
        (.ok column, { db with columns := ((table.name, name), column) :: db.columns })
      else if name = "_key" then
        let column : Column := ⟨table.name, name, table.keyType, false, table.keyTable⟩
        (.ok column, { db with columns := ((table.name, name), column) :: db.columns })
      else if name = "_value" then
        let column : Column := ⟨table.name, name, table.valueType, false, table.valueTable⟩
        (.ok column, { db with columns := ((table.name, name), column) :: db.columns })
      else
        match valueInfo.refTable with
        | none =>
          let column : Column :=
            ⟨table.name, name, valueInfo.dataType, valueInfo.dimension > 0, none⟩
          (.ok column, { db with columns := ((table.name, name), column) :: db.columns })
        | some refName =>
          if valueInfo.dataType = .Void then (.error (.referenceToVoid name), db)
          else
            match FindTable schema fuel db refName with
            | (.error e, db1) => (.error e, db1)
            | (.ok _, db1) =>
              let column : Column :=
                ⟨table.name, name, valueInfo.dataType, valueInfo.dimension > 0, some refName⟩
              (.ok column, { db1 with columns := ((table.name, name), column) :: db1.columns })

/-- strings.Split(name, ".") as used by Table.FindColumn, implemented over
the character list so that it evaluates by kernel reduction. -/
def splitOnDotAux : List Char → List Char → List String
  | [], acc => [String.mk acc.reverse]
  | c :: rest, acc =>
    if c = '.' then String.mk acc.reverse :: splitOnDotAux rest []
    else splitOnDotAux rest (c :: acc)

/-- strings.Split(name, "."). -/
def splitOnDot (name : String) : List String := splitOnDotAux name.data []

/-- strings.IndexByte(name, '.') != -1. -/
def hasDot (name : String) : Bool := name.data.contains '.'

/-- The walk over the trailing segments of a dotted column path
(the loop of Table.FindColumn, grngo.go 836-850): each current column must be
a table reference, the next segment resolves against the referenced table,
and a vector segment found while the accumulated flag is already set is the
vector-of-vector error.  In Go the referenced table is reached through the
column's pointer; here it is fetched from the handle cache by name, where
resolution stored it. -/
def walkSegments (schema : NativeSchema) (fuel : Nat) :
    DBState → Column → Bool → List String → Except GrnError (Column × Bool) × DBState
  | db, column, isVector, [] => (.ok (column, isVector), db)
  | db, column, isVector, segName :: rest =>
    match column.valueTable with
    | none => (.error (.notTableReference column.name), db)
    | some refName =>
      match alookup db.tables refName with
      | none => (.error (.tableNotFound refName), db)
      | some refTable =>
        match findColumn schema fuel db refTable segName with
        | (.error e, db1) => (.error e, db1)
        | (.ok c, db1) =>
          if c.isVector then
            if isVector then (.error .vectorOfVector, db1)
            else walkSegments schema fuel db1 c true rest
          else walkSegments schema fuel db1 c isVector rest

/-- Table.FindColumn (grngo.go 821-863): cache check; a name without a dot
resolves directly; a dotted name resolves its first segment, walks the rest,
requires the native lookup of the full dotted name to succeed, and builds the
composite column from the last-resolved segment's value type, the accumulated
vector flag, and the first segment's reference table (the source snapshots
`valueTable` before the walk and never updates it), caching it under the full
dotted name. -/
def FindColumn (schema : NativeSchema) (fuel : Nat) (db : DBState) (table : Table)
    (name : String) : Except GrnError Column × DBState :=
  match alookup db.columns (table.name, name) with
  | some column => (.ok column, db)
  | none =>
    if hasDot name = false then findColumn schema fuel db table name
    else
      match splitOnDot name with
      | [] => (.error (.columnLookupFailed name), db)
      | first :: rest =>
        match findColumn schema fuel db table first with
        | (.error e, db1) => (.error e, db1)
        | (.ok c0, db1) =>
          match walkSegments schema fuel db1 c0 c0.isVector rest with
          | (.error e, db2) => (.error e, db2)
          | (.ok (clast, isVector), db2) =>
            match schema.columns table.name name with
            | none => (.error (.columnLookupFailed name), db2)
            | some _ =>
              let column : Column :=
                ⟨table.name, name, clast.valueType, isVector, c0.valueTable⟩
              (.ok column, { db2 with columns := ((table.name, name), column) :: db2.columns })

/-- The per-character rejection test of DB.SendEx (grngo.go 318-322 for the
command name, 328-332 for option keys), exactly as written in the source: a
character is rejected when it differs from the underscore AND is below 'a'
AND is above 'z'. -/
def sendExRejectsChar (r : Char) : Bool :=
  decide (r ≠ '_') && decide (r < 'a') && decide (r > 'z')

/-- Outcome of DB.SendEx up to the transport boundary: either one of its two
malformed-command errors, or the command name and options it forwards to
DB.Send. -/
inductive SendExResult where
  | invalidCommand
  | invalidOption (key : String)
  | forwarded (name : String) (options : List (String × String))
  deriving DecidableEq, Repr

/-- DB.SendEx (grngo.go 314-338) up to the transport boundary: empty or
rejected command names error, then each option key in turn is checked for
emptiness and rejected characters, and otherwise the command is forwarded.
Go iterates a map; the options are carried here as an association list, and
the value escaping (backslash and quote) is elided since it never affects
which of the three outcomes is taken. -/
def SendEx (name : String) (options : List (String × String)) : SendExResult :=
  if name = "" then .invalidCommand
  else if name.data.any sendExRejectsChar then .invalidCommand
  else
    match options.find? (fun kv => decide (kv.1 = "") || kv.1.data.any sendExRejectsChar) with
    | some kv => .invalidOption kv.1
    | none => .forwarded name options

/-- Constants for ColumnOptions (grngo.go 128-134). -/
inductive ColumnType where
  | ScalarColumn
  | VectorColumn
  | IndexColumn
  deriving DecidableEq, Repr

/-- Constants for ColumnOptions (grngo.go 137-143). -/
inductive CompressionType where
  | NoCompression
  | ZlibCompression
  | LzoCompression
  deriving DecidableEq, Repr

/-- ColumnOptions (grngo.go 146-153). -/
structure ColumnOptions where
  columnType : ColumnType
  compressionType : CompressionType
  withSection : Bool
  withWeight : Bool
  withPosition : Bool
  source : String
  deriving DecidableEq, Repr

/-- The "flags" option value built by Table.CreateColumn (grngo.go 722-749).
As in the source, the compression branch assigns to the flags instead of
appending, and the LZO flag is spelled COMRESS_LZO. -/
def columnCreateFlags (options : ColumnOptions) : String :=
  let flags :=
    match options.columnType with
    | .ScalarColumn => "COLUMN_SCALAR"
    | .VectorColumn => "COLUMN_VECTOR"
    | .IndexColumn => "COLUMN_INDEX"
  let flags :=
    match options.compressionType with
    | .NoCompression => flags
    | .ZlibCompression => "|COMPRESS_ZLIB"
    | .LzoCompression => "|COMRESS_LZO"
  let flags := if options.withSection then flags ++ "|WITH_SECTION" else flags
  let flags := if options.withWeight then flags ++ "|WITH_WEIGHT" else flags
  if options.withPosition then flags ++ "|WITH_POSITION" else flags

/-- The runtime variants a Go `interface\x7b\x7d` key can take in
Table.InsertRow's type switch (grngo.go 682-700): nil, bool, int64, float64,
GeoPoint, and []byte. -/
inductive KeyVal where
  | voidKey
  | boolKey (b : Bool)
  | intKey (i : Int)
  | floatKey (f : GFloat)
  | geoPointKey (g : GeoPoint)
  | textKey (t : List Nat)
  deriving DecidableEq, Repr

/-- The native key handed to a `grngo_table_insert_*` call, after the Go-side
width conversion. -/
inductive GrnKey where
  | void
  | bool (b : Bool)
  | int8 (i : Int)
  | int16 (i : Int)
  | int32 (i : Int)
  | int64 (i : Int)
  | uint8 (i : Int)
  | uint16 (i : Int)
  | uint32 (i : Int)
  | uint64 (i : Int)
  | float (f : GFloat)
  | geoPoint (g : GeoPoint)
  | text (t : List Nat)
  deriving DecidableEq, Repr

/-- Go's conversion int64 -> intN (two's-complement truncation). -/
def wrapSigned (bits : Nat) (i : Int) : Int :=
  (i + 2 ^ (bits - 1)) % 2 ^ bits - 2 ^ (bits - 1)

/-- Go's conversion int64 -> uintN (truncation to the low bits). -/
def wrapUnsigned (bits : Nat) (i : Int) : Int := i % 2 ^ bits

/-- The keyed row storage of one native table. -/
structure TableStore where
  rows : List (GrnKey × Nat)
  nextId : Nat
  deriving DecidableEq, Repr

/-- Modelled from the spec: the native insert-or-find primitive implemented
by the C layer (`grngo_table_insert_*`, not part of the Go source).  Per the
row-key-inserter contract it returns a row id together with a flag that is
false when the key already existed (in which case the existing row's id is
returned), honoring at-most-one-row-per-key. -/
def tableStoreInsert (store : TableStore) (key : GrnKey) : (Bool × Nat) × TableStore :=
  match alookup store.rows key with
  | some id => ((false, id), store)
  | none =>
    ((true, store.nextId),
      { rows := (key, store.nextId) :: store.rows, nextId := store.nextId + 1 })

/-- The (inserted, id, error) triple returned by the insertion functions. -/
structure InsertResult where
  inserted : Bool
  id : Nat
  err : Option GrnError
  deriving DecidableEq, Repr

/-- The shared tail of every insert function: issue the native insert-or-find
call and map a sentinel id to a native failure (grngo.go, e.g. 574-578). -/
def runInsert (store : TableStore) (key : GrnKey) (call : String) : InsertResult × TableStore :=
  let r := tableStoreInsert store key
  if r.1.2 = NilID then (⟨false, NilID, some (.nativeFailure call)⟩, r.2)
  else (⟨r.1.1, r.1.2, none⟩, r.2)

/-- Table.insertVoid (grngo.go 570-579). -/
def insertVoid (table : Table) (store : TableStore) : InsertResult × TableStore :=
  if table.keyType ≠ .Void then (⟨false, NilID, some .keyTypeConflict⟩, store)
  else runInsert store .void "grngo_table_insert_void"

/-- Table.insertBool (grngo.go 582-595). -/
def insertBool (table : Table) (store : TableStore) (key : Bool) : InsertResult × TableStore :=
  if table.keyType ≠ .Bool then (⟨false, NilID, some .keyTypeConflict⟩, store)
  else runInsert store (.bool key) "grngo_table_insert_bool"

/-- Table.insertInt (grngo.go 598-632): the native width is selected from the
table's declared key type, not from the key's magnitude. -/
def insertInt (table : Table) (store : TableStore) (key : Int) : InsertResult × TableStore :=
  match table.keyType with
  | .Int8 => runInsert store (.int8 (wrapSigned 8 key)) "grngo_table_insert_int8"
  | .Int16 => runInsert store (.int16 (wrapSigned 16 key)) "grngo_table_insert_int16"
  | .Int32 => runInsert store (.int32 (wrapSigned 32 key)) "grngo_table_insert_int32"
  | .Int64 => runInsert store (.int64 (wrapSigned 64 key)) "grngo_table_insert_int64"
  | .UInt8 => runInsert store (.uint8 (wrapUnsigned 8 key)) "grngo_table_insert_uint8"
  | .UInt16 => runInsert store (.uint16 (wrapUnsigned 16 key)) "grngo_table_insert_uint16"
  | .UInt32 => runInsert store (.uint32 (wrapUnsigned 32 key)) "grngo_table_insert_uint32"
  | .UInt64 => runInsert store (.uint64 (wrapUnsigned 64 key)) "grngo_table_insert_uint64"
  | _ => (⟨false, NilID, some .keyTypeConflict⟩, store)

/-- Table.insertFloat (grngo.go 635-645). -/
def insertFloat (table : Table) (store : TableStore) (key : GFloat) : InsertResult × TableStore :=
  if table.keyType ≠ .Float then (⟨false, NilID, some .keyTypeConflict⟩, store)
  else runInsert store (.float key) "grngo_table_insert_float"

/-- Table.insertGeoPoint (grngo.go 648-660): both geo-point variants are
accepted. -/
def insertGeoPoint (table : Table) (store : TableStore) (key : GeoPoint) :
    InsertResult × TableStore :=
  match table.keyType with
  | .TokyoGeoPoint => runInsert store (.geoPoint key) "grngo_table_insert_geo_point"
  | .WGS84GeoPoint => runInsert store (.geoPoint key) "grngo_table_insert_geo_point"
  | _ => (⟨false, NilID, some .keyTypeConflict⟩, store)

/-- Table.insertText (grngo.go 663-677): only a ShortText key type passes. -/
def insertText (table : Table) (store : TableStore) (key : List Nat) :
    InsertResult × TableStore :=
  if table.keyType ≠ .ShortText then (⟨false, NilID, some .keyTypeConflict⟩, store)
  else runInsert store (.text key) "grngo_table_insert_text"

/-- Table.InsertRow (grngo.go 682-700): dispatch on the runtime variant of
the key. -/
def InsertRow (table : Table) (store : TableStore) (key : KeyVal) :
    InsertResult × TableStore :=
  match key with
  | .voidKey => insertVoid table store
  | .boolKey b => insertBool table store b
  | .intKey i => insertInt table store i
  | .floatKey f => insertFloat table store f
  | .geoPointKey g => insertGeoPoint table store g
  | .textKey t => insertText table store t

/-- The key-type match enforced by the insertion functions, collected from
their guards: which variant kinds pass the check for which declared key
types. -/
def keyMatches : KeyVal → DataType → Bool
  | .voidKey, t => t == .Void
  | .boolKey _, t => t == .Bool
  | .intKey _, t =>
    t == .Int8 || t == .Int16 || t == .Int32 || t == .Int64 ||
    t == .UInt8 || t == .UInt16 || t == .UInt32 || t == .UInt64
  | .floatKey _, t => t == .Float
  | .geoPointKey _, t => t == .TokyoGeoPoint || t == .WGS84GeoPoint
  | .textKey _, t => t == .ShortText

/-- The native key a matching InsertRow call hands to the store (the width
conversions of insertInt included). -/
def grnKeyOf (table : Table) : KeyVal → GrnKey
  | .voidKey => .void
  | .boolKey b => .bool b
  | .intKey i =>
    match table.keyType with
    | .Int8 => .int8 (wrapSigned 8 i)
    | .Int16 => .int16 (wrapSigned 16 i)
    | .Int32 => .int32 (wrapSigned 32 i)
    | .Int64 => .int64 (wrapSigned 64 i)
    | .UInt8 => .uint8 (wrapUnsigned 8 i)
    | .UInt16 => .uint16 (wrapUnsigned 16 i)
    | .UInt32 => .uint32 (wrapUnsigned 32 i)
    | _ => .uint64 (wrapUnsigned 64 i)
  | .floatKey f => .float f
  | .geoPointKey g => .geoPoint g
  | .textKey t => .text t

/-- The runtime variants a Go `interface\x7b\x7d` value can take in
Column.SetValue's type switch (grngo.go 1107-1133). -/
inductive SetVal where
  | boolVal (b : Bool)
  | intVal (i : Int)
  | floatVal (f : GFloat)
  | geoPointVal (g : GeoPoint)
  | textVal (t : List Nat)
  | boolVectorVal (v : List Bool)
  | intVectorVal (v : List Int)
  | floatVectorVal (v : List GFloat)
  | geoPointVectorVal (v : List GeoPoint)
  | textVectorVal (v : List (List Nat))
  deriving DecidableEq, Repr

/-- Description of the one native store call a set function issues, with
exactly the data the Go code passes (per-width conversion for scalar ints,
the raw int64 buffer for int vectors, the geo type tag where the source
passes one). -/
inductive NativeSetCall where
  | setBool (id : Nat) (v : Bool)
  | setInt (width : DataType) (id : Nat) (v : Int)
  | setFloat (id : Nat) (v : GFloat)
  | setGeoPoint (typeTag : DataType) (id : Nat) (v : GeoPoint)
  | setText (id : Nat) (v : List Nat)
  | setBoolVector (id : Nat) (v : List Bool)
  | setIntVector (width : DataType) (id : Nat) (v : List Int)
  | setFloatVector (id : Nat) (v : List GFloat)
  | setGeoPointVector (typeTag : DataType) (id : Nat) (v : List GeoPoint)
  | setTextVector (id : Nat) (v : List (List Nat))
  deriving DecidableEq, Repr

/-- Outcome of a set function up to the store boundary: the pre-check
type-conflict error, or the native call it issues. -/
inductive SetResult where
  | typeConflict
  | call (c : NativeSetCall)
  deriving DecidableEq, Repr

/-- Column.setBool (grngo.go 890-903). -/
def setBool (column : Column) (id : Nat) (value : Bool) : SetResult :=
  if column.valueType ≠ .Bool ∨ column.isVector then .typeConflict
  else .call (.setBool id value)

/-- Column.setInt (grngo.go 906-944): vector columns are rejected, then the
native width is selected from the declared value type. -/
def setInt (column : Column) (id : Nat) (value : Int) : SetResult :=
  if column.isVector then .typeConflict
  else
    match column.valueType with
    | .Int8 => .call (.setInt .Int8 id (wrapSigned 8 value))
    | .Int16 => .call (.setInt .Int16 id (wrapSigned 16 value))
    | .Int32 => .call (.setInt .Int32 id (wrapSigned 32 value))
    | .Int64 => .call (.setInt .Int64 id (wrapSigned 64 value))
    | .UInt8 => .call (.setInt .UInt8 id (wrapUnsigned 8 value))
    | .UInt16 => .call (.setInt .UInt16 id (wrapUnsigned 16 value))
    | .UInt32 => .call (.setInt .UInt32 id (wrapUnsigned 32 value))
    | .UInt64 => .call (.setInt .UInt64 id (wrapUnsigned 64 value))
    | _ => .typeConflict

/-- Column.setFloat (grngo.go 947-957). -/
def setFloat (column : Column) (id : Nat) (value : GFloat) : SetResult :=
  if column.valueType ≠ .Float ∨ column.isVector then .typeConflict
  else .call (.setFloat id value)

/-- Column.setGeoPoint (grngo.go 960-976): either geo variant passes the type
check, the native call receives the declared type as tag. -/
def setGeoPoint (column : Column) (id : Nat) (value : GeoPoint) : SetResult :=
  match column.valueType with
  | .TokyoGeoPoint =>
    if column.isVector then .typeConflict
    else .call (.setGeoPoint column.valueType id value)
  | .WGS84GeoPoint =>
    if column.isVector then .typeConflict
    else .call (.setGeoPoint column.valueType id value)
  | _ => .typeConflict

/-- Column.setText (grngo.go 979-998). -/
def setText (column : Column) (id : Nat) (value : List Nat) : SetResult :=
  match column.valueType with
  | .ShortText => if column.isVector then .typeConflict else .call (.setText id value)
  | .Text => if column.isVector then .typeConflict else .call (.setText id value)
  | .LongText => if column.isVector then .typeConflict else .call (.setText id value)
  | _ => .typeConflict

/-- Column.setBoolVector (grngo.go 1001-1018): the source performs no check
of the column's declared value type or vector-ness before the native call. -/
def setBoolVector (column : Column) (id : Nat) (value : List Bool) : SetResult :=
  .call (.setBoolVector id value)

/-- Column.setIntVector (grngo.go 1021-1054): the declared value type selects
the native width (rejecting non-integer types), but vector-ness is not
checked; the int64 buffer is passed raw. -/
def setIntVector (column : Column) (id : Nat) (value : List Int) : SetResult :=
  match column.valueType with
  | .Int8 => .call (.setIntVector .Int8 id value)
  | .Int16 => .call (.setIntVector .Int16 id value)
  | .Int32 => .call (.setIntVector .Int32 id value)
  | .Int64 => .call (.setIntVector .Int64 id value)
  | .UInt8 => .call (.setIntVector .UInt8 id value)
  | .UInt16 => .call (.setIntVector .UInt16 id value)
  | .UInt32 => .call (.setIntVector .UInt32 id value)
  | .UInt64 => .call (.setIntVector .UInt64 id value)
  | _ => .typeConflict

/-- Column.setFloatVector (grngo.go 1057-1068): no pre-check in the source. -/
def setFloatVector (column : Column) (id : Nat) (value : List GFloat) : SetResult :=
  .call (.setFloatVector id value)

/-- Column.setGeoPointVector (grngo.go 1071-1083): no pre-check in the
source; the declared value type is passed as the native type tag. -/
def setGeoPointVector (column : Column) (id : Nat) (value : List GeoPoint) : SetResult :=
  .call (.setGeoPointVector column.valueType id value)

/-- Column.setTextVector (grngo.go 1086-1104): no pre-check in the source. -/
def setTextVector (column : Column) (id : Nat) (value : List (List Nat)) : SetResult :=
  .call (.setTextVector id value)

/-- Column.SetValue (grngo.go 1107-1133): dispatch on the runtime variant of
the value. -/
def SetValue (column : Column) (id : Nat) (value : SetVal) : SetResult :=
  match value with
  | .boolVal b => setBool column id b
  | .intVal i => setInt column id i
  | .floatVal f => setFloat column id f
  | .geoPointVal g => setGeoPoint column id g
  | .textVal t => setText column id t
  | .boolVectorVal v => setBoolVector column id v
  | .intVectorVal v => setIntVector column id v
  | .floatVectorVal v => setFloatVector column id v
  | .geoPointVectorVal v => setGeoPointVector column id v
  | .textVectorVal v => setTextVector column id v

/-- Whether a declared value type is one of the eight integer widths. -/
def isIntType : DataType → Bool
  | .Int8 => true
  | .Int16 => true
  | .Int32 => true
  | .Int64 => true
  | .UInt8 => true
  | .UInt16 => true
  | .UInt32 => true
  | .UInt64 => true
  | _ => false

/-- Whether a declared value type is one of the two geo-point variants. -/
def isGeoType : DataType → Bool
  | .TokyoGeoPoint => true
  | .WGS84GeoPoint => true
  | _ => false

/-- Whether a declared value type is one of the three text types. -/
def isTextType : DataType → Bool
  | .ShortText => true
  | .Text => true
  | .LongText => true
  | _ => false

/-- Result of a variable-length read together with the number of native
getter calls the Go code issued to produce it. -/
structure GetTrace (α : Type) where
  value : α
  nativeCalls : Nat
  deriving DecidableEq, Repr

/-- Modelled from the spec: the native variable-length text getter
(`grngo_column_get_text`, C layer, not part of the Go source).  Every call
reports the required byte count, and fills the destination up to its
capacity. -/
def nativeGetText (payload : List Nat) (capacity : Nat) : Nat × List Nat :=
  (payload.length, payload.take capacity)

/-- Column.getText (grngo.go 1177-1193): phase one with a zero-capacity
destination; a zero size short-circuits to the empty sequence; otherwise one
more call with a destination of exactly the reported size. -/
def getText (payload : List Nat) : GetTrace (List Nat) :=
  let phase1 := nativeGetText payload 0
  if phase1.1 = 0 then ⟨[], 1⟩
  else ⟨(nativeGetText payload phase1.1).2, 2⟩

/-- Modelled from the spec: the native bool-vector getter
(`grngo_column_get_bool_vector`). -/
def nativeGetBoolVector (payload : List Bool) (capacity : Nat) : Nat × List Bool :=
  (payload.length, payload.take capacity)

/-- Column.getBoolVector (grngo.go 1196-1216): same two-phase shape as
getText. -/
def getBoolVector (payload : List Bool) : GetTrace (List Bool) :=
  let phase1 := nativeGetBoolVector payload 0
  if phase1.1 = 0 then ⟨[], 1⟩
  else ⟨(nativeGetBoolVector payload phase1.1).2, 2⟩

/-- Modelled from the spec: the native int-vector getter
(`grngo_column_get_int_vector`). -/
def nativeGetIntVector (payload : List Int) (capacity : Nat) : Nat × List Int :=
  (payload.length, payload.take capacity)

/-- Column.getIntVector (grngo.go 1219-1237). -/
def getIntVector (payload : List Int) : GetTrace (List Int) :=
  let phase1 := nativeGetIntVector payload 0
  if phase1.1 = 0 then ⟨[], 1⟩
  else ⟨(nativeGetIntVector payload phase1.1).2, 2⟩

/-- Modelled from the spec: the native float-vector getter
(`grngo_column_get_float_vector`). -/
def nativeGetFloatVector (payload : List GFloat) (capacity : Nat) : Nat × List GFloat :=
  (payload.length, payload.take capacity)

/-- Column.getFloatVector (grngo.go 1240-1256). -/
def getFloatVector (payload : List GFloat) : GetTrace (List GFloat) :=
  let phase1 := nativeGetFloatVector payload 0
  if phase1.1 = 0 then ⟨[], 1⟩
  else ⟨(nativeGetFloatVector payload phase1.1).2, 2⟩

/-- Modelled from the spec: the native geo-point-vector getter
(`grngo_column_get_geo_point_vector`). -/
def nativeGetGeoPointVector (payload : List GeoPoint) (capacity : Nat) :
    Nat × List GeoPoint :=
  (payload.length, payload.take capacity)

/-- Column.getGeoPointVector (grngo.go 1259-1275). -/
def getGeoPointVector (payload : List GeoPoint) : GetTrace (List GeoPoint) :=
  let phase1 := nativeGetGeoPointVector payload 0
  if phase1.1 = 0 then ⟨[], 1⟩
  else ⟨(nativeGetGeoPointVector payload phase1.1).2, 2⟩

/-- Modelled from the spec: the native text-vector getter
(`grngo_column_get_text_vector`).  A call reports the element count and fills
the destination's text descriptors, i.e. the element sizes, up to its
capacity. -/
def nativeGetTextVector (payload : List (List Nat)) (capacity : Nat) : Nat × List Nat :=
  (payload.length, (payload.map List.length).take capacity)

/-- Modelled from the spec: the content-filling call of the text-vector
getter, which, given descriptors holding a destination of each reported
size, fills every element's bytes. -/
def nativeFillTextVector (payload : List (List Nat)) (sizes : List Nat) :
    List (List Nat) :=
  (payload.zip sizes).map fun p => p.1.take p.2

/-- Column.getTextVector (grngo.go 1278-1305): phase one discovers the
element count and a zero count short-circuits; otherwise a second call fills
the per-element size descriptors, per-element destinations are allocated,
and a third call fills the contents — three native calls in total. -/
def getTextVector (payload : List (List Nat)) : GetTrace (List (List Nat)) :=
  let phase1 := nativeGetTextVector payload 0
  if phase1.1 = 0 then ⟨[], 1⟩
  else
    let sizes := (nativeGetTextVector payload phase1.1).2
    ⟨nativeFillTextVector payload sizes, 3⟩

/-- A small concrete schema used to exercise the definitions: table A with a
reference column "r" to table B, table B with a scalar Int32 column "v",
plus two tables whose key or value descriptor is a reference to void. -/
def exSchema : NativeSchema where
  tables := fun n =>
    if n = "A" then some ⟨⟨.ShortText, 0, none⟩, ⟨.Void, 0, none⟩⟩
    else if n = "B" then some ⟨⟨.ShortText, 0, none⟩, ⟨.Void, 0, none⟩⟩
    else if n = "BadKey" then some ⟨⟨.Void, 0, some "A"⟩, ⟨.Void, 0, none⟩⟩
    else if n = "BadVal" then some ⟨⟨.ShortText, 0, none⟩, ⟨.Void, 0, some "A"⟩⟩
    else none
  columns := fun t c =>
    if t = "A" then
      if c = "r" then some ⟨.ShortText, 0, some "B"⟩
      else if c = "r.v" then some ⟨.Int32, 0, none⟩
      else none
    else if t = "B" then
      if c = "v" then some ⟨.Int32, 0, none⟩
      else none
    else none

/-- The resolved handle of example table A. -/
def exTableA : Table := ⟨"A", .ShortText, none, .Void, none⟩

/-- The resolved handle of example table B. -/
def exTableB : Table := ⟨"B", .ShortText, none, .Void, none⟩

/-- An empty handle cache. -/
def exDB0 : DBState := ⟨[], []⟩

/-- The resolved column A."r". -/
def exColR : Column := ⟨"A", "r", .ShortText, false, some "B"⟩

/-- The resolved column B."v". -/
def exColV : Column := ⟨"B", "v", .Int32, false, none⟩

/-- The composite column produced for A."r.v". -/
def exColRV : Column := ⟨"A", "r.v", .Int32, false, some "B"⟩

/-- The cache state after resolving A."r" from the empty cache. -/
def exDB1 : DBState := ⟨[("B", exTableB)], [(("A", "r"), exColR)]⟩

/-- The cache state after resolving A."r.v" from the empty cache. -/
def exDB3 : DBState :=
  ⟨[("B", exTableB)], [(("A", "r.v"), exColRV), (("B", "v"), exColV), (("A", "r"), exColR)]⟩

/-- Specification-side restatement of the dotted-path walk of
Table.FindColumn, used to talk about the columns the walk resolves:
`Walks schema fuel db c segs cols db1` holds when walking the trailing
segments `segs` from column `c` resolves exactly the segment columns `cols`,
each against the previous column's reference table, leaving the vector
bookkeeping aside. -/
inductive Walks (schema : NativeSchema) (fuel : Nat) :
    DBState → Column → List String → List Column → DBState → Prop where
  | nil (db : DBState) (c : Column) : Walks schema fuel db c [] [] db
  | cons (db : DBState) (c : Column) (refName : String) (refTable : Table)
      (seg : String) (rest : List String) (c1 : Column) (db1 : DBState)
      (cols : List Column) (db2 : DBState)
      (href : c.valueTable = some refName)
      (htab : alookup db.tables refName = some refTable)
      (hfind : findColumn schema fuel db refTable seg = (.ok c1, db1))
      (hrest : Walks schema fuel db1 c1 rest cols db2) :
      Walks schema fuel db c (seg :: rest) (c1 :: cols) db2

end Grngo

namespace Grngo

/-! ## Basic lemmas -/

/-- An association list lookup finds the entry just inserted. -/
theorem alookup_cons_self {α β : Type} [DecidableEq α] (k : α) (v : β) (l : List (α × β)) :
    alookup ((k, v) :: l) k = some v := by
  simp [alookup]

/-- An association list lookup skips an entry with a different key. -/
theorem alookup_cons_ne {α β : Type} [DecidableEq α] (k a : α) (v : β) (l : List (α × β))
    (h : a ≠ k) : alookup ((k, v) :: l) a = alookup l a := by
  simp [alookup, h]

/-- The per-character rejection test of SendEx never fires: no character is
simultaneously below 'a' and above 'z', so the conjunction in the source is
unsatisfiable. -/
theorem sendExRejectsChar_eq_false (r : Char) : sendExRejectsChar r = false := by
  rcases lt_or_le r 'a' with h | h
  · have hz : ¬ r > 'z' := fun hgt => absurd (lt_trans hgt h) (by decide)
    simp [sendExRejectsChar, hz]
  · have ha : ¬ r < 'a' := not_lt.mpr h
    simp [sendExRejectsChar, ha]

/-- SendEx forwards every command with a nonempty name and nonempty option
keys, whatever characters they contain. -/
theorem SendEx_forwards (name : String) (options : List (String × String))
    (hname : name ≠ "") (hkeys : ∀ kv ∈ options, kv.1 ≠ "") :
    SendEx name options = .forwarded name options := by
  have hany : ∀ l : List Char, l.any sendExRejectsChar = false := by
    intro l
    simp [List.any_eq_false, sendExRejectsChar_eq_false]
  have hfind : options.find?
      (fun kv => decide (kv.1 = "") || kv.1.data.any sendExRejectsChar) = none := by
    rw [List.find?_eq_none]
    intro kv hkv
    simp [hany, hkeys kv hkv]
  unfold SendEx
  rw [if_neg hname, if_neg (by simp [hany]), hfind]

/-! ## C2 -/

/-- C2: the claim that SendEx rejects command names and option keys outside
the `[a-z_]+` grammar fails on the code: the source's per-character check is
the unsatisfiable conjunction `(r != '_') && (r < 'a') && (r > 'z')` (an
`&&` where `||` was meant), so names and keys with uppercase letters, digits
or punctuation are forwarded to the transport instead of producing a
malformed-command error. -/
theorem SendEx_accepts_malformed_identifiers :
    sendExRejectsChar 'A' = false ∧
    sendExRejectsChar '1' = false ∧
    SendEx "table_Create" [("Key1", "value")] =
      .forwarded "table_Create" [("Key1", "value")] := by
  decide

/-! ## C4 -/

/-- C4: the claim that CreateColumn forwards the pipe-delimited combination
of the column-type flag with the compression flag fails on the code: the
compression branch overwrites the flags instead of appending (an assignment
where `+=` was meant), so the column-type flag is lost, and the LZO flag is
misspelled COMRESS_LZO.  The third conjunct shows the overwrite is specific
to the compression branch: without compression the column-type flag
survives, and the WITH_* modifiers append as claimed. -/
theorem columnCreateFlags_compression_overwrites :
    columnCreateFlags ⟨.ScalarColumn, .ZlibCompression, false, false, false, ""⟩ =
      "|COMPRESS_ZLIB" ∧
    columnCreateFlags ⟨.VectorColumn, .LzoCompression, false, false, false, ""⟩ =
      "|COMRESS_LZO" ∧
    columnCreateFlags ⟨.ScalarColumn, .NoCompression, true, false, true, ""⟩ =
      "COLUMN_SCALAR|WITH_SECTION|WITH_POSITION" := by
  decide

/-! ## C3 -/

/-- C3 counterexample: the claim that SetValue rejects every shape mismatch
before issuing a native call fails on the code: a Bool vector written to a
non-vector Bool column is handed to the store, and so is a Bool vector
written to a scalar Float column (mismatched element kind), because
setBoolVector performs no pre-check. -/
theorem SetValue_vector_reaches_store :
    (Column.isVector ⟨"T", "c", .Bool, false, none⟩ = false) ∧
    SetValue ⟨"T", "c", .Bool, false, none⟩ 1 (.boolVectorVal [true]) =
      .call (.setBoolVector 1 [true]) ∧
    SetValue ⟨"T", "c", .Float, false, none⟩ 1 (.boolVectorVal [true]) =
      .call (.setBoolVector 1 [true]) := by
  decide

/-- setBool rejects a wrong declared type or a vector column before any
native call. -/
theorem setBool_conflict (column : Column) (id : Nat) (b : Bool)
    (h : column.valueType ≠ .Bool ∨ column.isVector) :
    setBool column id b = .typeConflict := by
  simp only [setBool, if_pos h]

/-- setInt rejects a non-integer declared type or a vector column before any
native call. -/
theorem setInt_conflict (column : Column) (id : Nat) (i : Int)
    (h : isIntType column.valueType = false ∨ column.isVector) :
    setInt column id i = .typeConflict := by
  unfold setInt
  by_cases hv : column.isVector
  · simp [hv]
  · simp only [if_neg hv]
    rcases h with h | h
    · cases hvt : column.valueType <;> simp_all [isIntType]
    · exact absurd h hv

/-- setFloat rejects a wrong declared type or a vector column before any
native call. -/
theorem setFloat_conflict (column : Column) (id : Nat) (f : GFloat)
    (h : column.valueType ≠ .Float ∨ column.isVector) :
    setFloat column id f = .typeConflict := by
  simp only [setFloat, if_pos h]

/-- setGeoPoint rejects a non-geo declared type or a vector column before
any native call. -/
theorem setGeoPoint_conflict (column : Column) (id : Nat) (g : GeoPoint)
    (h : isGeoType column.valueType = false ∨ column.isVector) :
    setGeoPoint column id g = .typeConflict := by
  unfold setGeoPoint
  rcases h with h | h
  · cases hvt : column.valueType <;> simp_all [isGeoType]
  · cases hvt : column.valueType <;> simp_all

/-- setText rejects a non-text declared type or a vector column before any
native call. -/
theorem setText_conflict (column : Column) (id : Nat) (t : List Nat)
    (h : isTextType column.valueType = false ∨ column.isVector) :
    setText column id t = .typeConflict := by
  unfold setText
  rcases h with h | h
  · cases hvt : column.valueType <;> simp_all [isTextType]
  · cases hvt : column.valueType <;> simp_all

/-- setIntVector rejects a non-integer declared element type before any
native call (it does not check vector-ness). -/
theorem setIntVector_conflict (column : Column) (id : Nat) (v : List Int)
    (h : isIntType column.valueType = false) :
    setIntVector column id v = .typeConflict := by
  unfold setIntVector
  cases hvt : column.valueType <;> simp_all [isIntType]

/-- C3 (amended): SetValue fully pre-checks scalar values — a scalar whose
kind differs from the column's declared value type, or any scalar written to
a vector column, is a pure type-conflict error with no native call — and an
int vector written to a column whose declared type is not an integer width is
likewise rejected before any call.  (Per the counterexample, the remaining
vector shapes are not pre-checked.) -/
theorem SetValue_scalar_prechecks (column : Column) (id : Nat) :
    (∀ b, column.valueType ≠ .Bool ∨ column.isVector →
      SetValue column id (.boolVal b) = .typeConflict) ∧
    (∀ i, isIntType column.valueType = false ∨ column.isVector →
      SetValue column id (.intVal i) = .typeConflict) ∧
    (∀ f, column.valueType ≠ .Float ∨ column.isVector →
      SetValue column id (.floatVal f) = .typeConflict) ∧
    (∀ g, isGeoType column.valueType = false ∨ column.isVector →
      SetValue column id (.geoPointVal g) = .typeConflict) ∧
    (∀ t, isTextType column.valueType = false ∨ column.isVector →
      SetValue column id (.textVal t) = .typeConflict) ∧
    (∀ v, isIntType column.valueType = false →
      SetValue column id (.intVectorVal v) = .typeConflict) :=
  ⟨fun b h => setBool_conflict column id b h,
   fun i h => setInt_conflict column id i h,
   fun f h => setFloat_conflict column id f h,
   fun g h => setGeoPoint_conflict column id g h,
   fun t h => setText_conflict column id t h,
   fun v h => setIntVector_conflict column id v h⟩

/-- C3 witness: a Bool scalar written to a scalar Text column is rejected
without a native call. -/
theorem SetValue_scalar_prechecks_witness :
    SetValue ⟨"T", "c", .Text, false, none⟩ 1 (.boolVal true) = .typeConflict :=
  (SetValue_scalar_prechecks ⟨"T", "c", .Text, false, none⟩ 1).1 true (Or.inl (by decide))

/-! ## C7 -/

/-- C7 counterexample: the claim that every variable-length read issues
exactly one native call after phase one fails on the code: a nonempty
text-vector read issues three native calls in total, not two. -/
theorem getTextVector_issues_three_calls :
    (getTextVector [[0]]).nativeCalls = 3 ∧ (getTextVector [[0]]).nativeCalls ≠ 2 := by
  decide

/-- Filling a text vector with its own element sizes reproduces it. -/
theorem nativeFillTextVector_self (l : List (List Nat)) :
    nativeFillTextVector l (l.map List.length) = l := by
  induction l with
  | nil => rfl
  | cons x xs ih =>
    simp only [nativeFillTextVector, List.map_cons, List.zip_cons_cons, List.map_cons,
      List.take_length] at *
    rw [ih]

/-- C7 (amended): every variable-length read calls the native getter once
with a zero-capacity destination, returns the empty sequence after that
single call when the reported size is zero, and otherwise fills a
destination of exactly the reported size — with exactly one further call for
the text scalar and the bool/int/float/geo-point vectors, and with exactly
two further calls (size descriptors, then contents) for the text vector. -/
theorem variable_length_two_phase (t : List Nat) (bv : List Bool) (iv : List Int)
    (fv : List GFloat) (gv : List GeoPoint) (tv : List (List Nat)) :
    getText t = ⟨t, if t = [] then 1 else 2⟩ ∧
    getBoolVector bv = ⟨bv, if bv = [] then 1 else 2⟩ ∧
    getIntVector iv = ⟨iv, if iv = [] then 1 else 2⟩ ∧
    getFloatVector fv = ⟨fv, if fv = [] then 1 else 2⟩ ∧
    getGeoPointVector gv = ⟨gv, if gv = [] then 1 else 2⟩ ∧
    getTextVector tv = ⟨tv, if tv = [] then 1 else 3⟩ := by
  refine ⟨?_, ?_, ?_, ?_, ?_, ?_⟩
  · by_cases h : t = [] <;>
      simp [getText, nativeGetText, List.length_eq_zero, h, List.take_length]
  · by_cases h : bv = [] <;>
      simp [getBoolVector, nativeGetBoolVector, List.length_eq_zero, h, List.take_length]
  · by_cases h : iv = [] <;>
      simp [getIntVector, nativeGetIntVector, List.length_eq_zero, h, List.take_length]
  · by_cases h : fv = [] <;>
      simp [getFloatVector, nativeGetFloatVector, List.length_eq_zero, h, List.take_length]
  · by_cases h : gv = [] <;>
      simp [getGeoPointVector, nativeGetGeoPointVector, List.length_eq_zero, h,
        List.take_length]
  · by_cases h : tv = []
    · simp [getTextVector, nativeGetTextVector, h]
    · have htake : (tv.map List.length).take tv.length = tv.map List.length := by
        rw [← List.length_map tv List.length]
        exact List.take_length _
      simp [getTextVector, nativeGetTextVector, List.length_eq_zero, h, htake,
        nativeFillTextVector_self]

/-! ## C10 -/

/-- C10: an insertText call passes the key-type check exactly when the
table's declared key type is ShortText, reaching the native insert-or-find
call; any other key type — Text and LongText included — gets the
key-type-conflict error with the sentinel id and an unchanged store. -/
theorem insertText_requires_ShortText (table : Table) (store : TableStore) (t : List Nat) :
    (table.keyType = .ShortText →
      InsertRow table store (.textKey t) =
        runInsert store (.text t) "grngo_table_insert_text") ∧
    (table.keyType ≠ .ShortText →
      InsertRow table store (.textKey t) =
        (⟨false, NilID, some .keyTypeConflict⟩, store)) := by
  constructor
  · intro h; simp [InsertRow, insertText, h]
  · intro h; simp [InsertRow, insertText, h]

/-- C10 witness: a byte-sequence key against a Text-keyed table conflicts
with no store call, and the same key against a ShortText-keyed table reaches
the store. -/
theorem insertText_requires_ShortText_witness :
    InsertRow ⟨"T", .Text, none, .Void, none⟩ ⟨[], 1⟩ (.textKey [65]) =
      (⟨false, NilID, some .keyTypeConflict⟩, ⟨[], 1⟩) :=
  (insertText_requires_ShortText ⟨"T", .Text, none, .Void, none⟩ ⟨[], 1⟩ [65]).2 (by decide)

/-! ## C5 -/

/-- C5: a key whose runtime variant kind does not match the table's declared
key type makes InsertRow return the key-type-conflict error with the sentinel
id and leave the store untouched: no native insert call is issued and no row
is created. -/
theorem InsertRow_key_type_conflict (table : Table) (store : TableStore) (key : KeyVal)
    (h : keyMatches key table.keyType = false) :
    InsertRow table store key = (⟨false, NilID, some .keyTypeConflict⟩, store) := by
  cases key <;> cases htk : table.keyType <;>
    simp_all [keyMatches, InsertRow, insertVoid, insertBool, insertInt, insertFloat,
      insertGeoPoint, insertText]

/-- C5 witness: a float key against a Text-keyed table. -/
theorem InsertRow_key_type_conflict_witness :
    InsertRow ⟨"T", .Text, none, .Void, none⟩ ⟨[], 1⟩ (.floatKey ⟨0⟩) =
      (⟨false, NilID, some .keyTypeConflict⟩, ⟨[], 1⟩) :=
  InsertRow_key_type_conflict ⟨"T", .Text, none, .Void, none⟩ ⟨[], 1⟩ (.floatKey ⟨0⟩)
    (by decide)

/-! ## C6 -/

/-- runInsert on a key the store does not yet hold inserts it under the next
id. -/
theorem runInsert_fresh (store : TableStore) (k : GrnKey) (call : String)
    (hfresh : alookup store.rows k = none) (hid : store.nextId ≠ NilID) :
    runInsert store k call =
      (⟨true, store.nextId, none⟩,
        ⟨(k, store.nextId) :: store.rows, store.nextId + 1⟩) := by
  simp [runInsert, tableStoreInsert, hfresh, hid]

/-- runInsert on a key the store already holds returns the stored id with
the inserted flag false and leaves the store unchanged. -/
theorem runInsert_found (store : TableStore) (k : GrnKey) (call : String) (id : Nat)
    (hfound : alookup store.rows k = some id) (hid : id ≠ NilID) :
    runInsert store k call = (⟨false, id, none⟩, store) := by
  simp [runInsert, tableStoreInsert, hfound, hid]

/-- When the key's variant kind matches the declared key type, InsertRow is
exactly the native insert-or-find call on the converted key. -/
theorem InsertRow_matched (table : Table) (store : TableStore) (key : KeyVal)
    (hmatch : keyMatches key table.keyType = true) :
    ∃ call, InsertRow table store key = runInsert store (grnKeyOf table key) call := by
  cases key <;> cases htk : table.keyType <;>
    simp_all [keyMatches, InsertRow, insertVoid, insertBool, insertInt, insertFloat,
      insertGeoPoint, insertText, grnKeyOf]

/-- C6: inserting a matching key that the store does not yet hold returns
(true, id, nil); inserting the same key again returns (false, id, nil) with
the identical id and an unchanged store, as the native layer's
at-most-one-row-per-key guarantee is passed through verbatim. -/
theorem InsertRow_insert_then_find (table : Table) (store : TableStore) (key : KeyVal)
    (hmatch : keyMatches key table.keyType = true)
    (hfresh : alookup store.rows (grnKeyOf table key) = none)
    (hid : store.nextId ≠ NilID) :
    ∃ id store1,
      InsertRow table store key = (⟨true, id, none⟩, store1) ∧
      InsertRow table store1 key = (⟨false, id, none⟩, store1) := by
  obtain ⟨call, hcall⟩ := InsertRow_matched table store key hmatch
  set k := grnKeyOf table key with hk
  refine ⟨store.nextId, ⟨(k, store.nextId) :: store.rows, store.nextId + 1⟩, ?_, ?_⟩
  · rw [hcall, runInsert_fresh store k call hfresh hid]
  · obtain ⟨call2, hcall2⟩ :=
      InsertRow_matched table ⟨(k, store.nextId) :: store.rows, store.nextId + 1⟩ key hmatch
    rw [hcall2, runInsert_found _ _ _ store.nextId (alookup_cons_self k store.nextId store.rows) hid]

/-- C6 witness: a Bool key inserted twice into an empty Bool-keyed table's
store. -/
theorem InsertRow_insert_then_find_witness :
    ∃ id store1,
      InsertRow ⟨"T", .Bool, none, .Void, none⟩ ⟨[], 1⟩ (.boolKey true) =
        (⟨true, id, none⟩, store1) ∧
      InsertRow ⟨"T", .Bool, none, .Void, none⟩ store1 (.boolKey true) =
        (⟨false, id, none⟩, store1) :=
  InsertRow_insert_then_find ⟨"T", .Bool, none, .Void, none⟩ ⟨[], 1⟩ (.boolKey true)
    (by decide) (by decide) (by decide)

/-! ## C8 -/

/-- A FindTable call on a cached name is a pure cache hit at any fuel. -/
theorem FindTable_cached (schema : NativeSchema) (fuel : Nat) (db : DBState)
    (name : String) (t : Table) (h : alookup db.tables name = some t) :
    FindTable schema fuel db name = (.ok t, db) := by
  cases fuel <;> simp [FindTable, h]

/-- A successful FindTable leaves the returned table in the cache under its
name. -/
theorem FindTable_ok_cached (schema : NativeSchema) (fuel : Nat) (db : DBState)
    (name : String) (t : Table) (db1 : DBState)
    (h : FindTable schema fuel db name = (.ok t, db1)) :
    alookup db1.tables name = some t := by
  cases fuel with
  | zero =>
    simp only [FindTable] at h
    split at h <;> simp_all
  | succ fuel =>
    simp only [FindTable] at h
    split at h
    · simp_all
    · split at h
      · simp_all
      · split at h
        · simp_all
        · split at h
          · simp_all
          · obtain ⟨h1, h2⟩ := Prod.mk.injEq .. ▸ h
            obtain rfl := Except.ok.inj h1
            subst h2
            simp [alookup]

/-- A findColumn call on a cached column name is a pure cache hit at any
fuel. -/
theorem findColumn_cached (schema : NativeSchema) (fuel : Nat) (db : DBState)
    (table : Table) (cname : String) (c : Column)
    (h : alookup db.columns (table.name, cname) = some c) :
    findColumn schema fuel db table cname = (.ok c, db) := by
  simp [findColumn, h]

/-- A successful findColumn leaves the returned column in the cache under
its (table, column) name pair. -/
theorem findColumn_ok_cached (schema : NativeSchema) (fuel : Nat) (db : DBState)
    (table : Table) (cname : String) (c : Column) (db1 : DBState)
    (h : findColumn schema fuel db table cname = (.ok c, db1)) :
    alookup db1.columns (table.name, cname) = some c := by
  simp only [findColumn] at h
  split at h
  · simp_all
  · split at h
    · simp_all
    · split at h
      · obtain ⟨h1, h2⟩ := Prod.mk.injEq .. ▸ h
        obtain rfl := Except.ok.inj h1
        subst h2
        simp [alookup]
      · split at h
        · obtain ⟨h1, h2⟩ := Prod.mk.injEq .. ▸ h
          obtain rfl := Except.ok.inj h1
          subst h2
          simp [alookup]
        · split at h
          · obtain ⟨h1, h2⟩ := Prod.mk.injEq .. ▸ h
            obtain rfl := Except.ok.inj h1
            subst h2
            simp [alookup]
          · split at h
            · obtain ⟨h1, h2⟩ := Prod.mk.injEq .. ▸ h
              obtain rfl := Except.ok.inj h1
              subst h2
              simp [alookup]
            · split at h
              · simp_all
              · split at h
                · simp_all
                · obtain ⟨h1, h2⟩ := Prod.mk.injEq .. ▸ h
                  obtain rfl := Except.ok.inj h1
                  subst h2
                  simp [alookup]

/-- A FindColumn call on a cached column name is a pure cache hit at any
fuel. -/
theorem FindColumn_cached (schema : NativeSchema) (fuel : Nat) (db : DBState)
    (table : Table) (cname : String) (c : Column)
    (h : alookup db.columns (table.name, cname) = some c) :
    FindColumn schema fuel db table cname = (.ok c, db) := by
  simp [FindColumn, h]

/-- A successful FindColumn leaves the returned column in the cache under
its (table, column) name pair. -/
theorem FindColumn_ok_cached (schema : NativeSchema) (fuel : Nat) (db : DBState)
    (table : Table) (cname : String) (c : Column) (db1 : DBState)
    (h : FindColumn schema fuel db table cname = (.ok c, db1)) :
    alookup db1.columns (table.name, cname) = some c := by
  simp only [FindColumn] at h
  split at h
  · simp_all
  · split at h
    · exact findColumn_ok_cached schema fuel db table cname c db1 h
    · split at h
      · simp_all
      · split at h
        · simp_all
        · split at h
          · simp_all
          · split at h
            · simp_all
            · obtain ⟨h1, h2⟩ := Prod.mk.injEq .. ▸ h
              obtain rfl := Except.ok.inj h1
              subst h2
              simp [alookup]

/-- C8: resolving the same table name twice from one handle returns the
identical cached Table (second call a pure cache hit with the state
unchanged), and the Table is in the cache before the first call returns; the
same idempotence holds for single-segment and dotted column lookups of the
same name on the same table. -/
theorem cache_identity (schema : NativeSchema) :
    (∀ fuel db name t db1, FindTable schema fuel db name = (.ok t, db1) →
      alookup db1.tables name = some t ∧
      ∀ fuel2, FindTable schema fuel2 db1 name = (.ok t, db1)) ∧
    (∀ fuel db table cname c db1, findColumn schema fuel db table cname = (.ok c, db1) →
      alookup db1.columns (table.name, cname) = some c ∧
      ∀ fuel2, findColumn schema fuel2 db1 table cname = (.ok c, db1)) ∧
    (∀ fuel db table cname c db1, FindColumn schema fuel db table cname = (.ok c, db1) →
      alookup db1.columns (table.name, cname) = some c ∧
      ∀ fuel2, FindColumn schema fuel2 db1 table cname = (.ok c, db1)) := by
  refine ⟨fun fuel db name t db1 h => ?_, fun fuel db table cname c db1 h => ?_,
    fun fuel db table cname c db1 h => ?_⟩
  · have hc := FindTable_ok_cached schema fuel db name t db1 h
    exact ⟨hc, fun fuel2 => FindTable_cached schema fuel2 db1 name t hc⟩
  · have hc := findColumn_ok_cached schema fuel db table cname c db1 h
    exact ⟨hc, fun fuel2 => findColumn_cached schema fuel2 db1 table cname c hc⟩
  · have hc := FindColumn_ok_cached schema fuel db table cname c db1 h
    exact ⟨hc, fun fuel2 => FindColumn_cached schema fuel2 db1 table cname c hc⟩

/-- C8 witness: resolving table A from the empty cache caches it, and every
later lookup returns the identical instance with the state unchanged. -/
theorem cache_identity_witness :
    alookup (DBState.mk [("A", exTableA)] []).tables "A" = some exTableA ∧
    ∀ fuel2, FindTable exSchema fuel2 ⟨[("A", exTableA)], []⟩ "A" =
      (.ok exTableA, ⟨[("A", exTableA)], []⟩) :=
  (cache_identity exSchema).1 1 exDB0 "A" exTableA ⟨[("A", exTableA)], []⟩ (by decide)

/-! ## C9 -/

/-- When a name's native table has a value descriptor that is a reference to
void, no FindTable call — on that name or any other — ever inserts that name
into the cache: resolving the name itself always fails at the value check
before its cache insertion, and resolving any other name can only cache that
name through such a failed nested resolution. -/
theorem FindTable_preserves_missing (schema : NativeSchema) (name : String)
    (nt : NativeTable) (r : String)
    (hschema : schema.tables name = some nt)
    (hvr : nt.valueInfo.refTable = some r)
    (hvt : nt.valueInfo.dataType = .Void) :
    ∀ (fuel : Nat) (db : DBState) (start : String),
      alookup db.tables name = none →
      alookup (FindTable schema fuel db start).2.tables name = none := by
  intro fuel
  induction fuel with
  | zero =>
    intro db start hmiss
    simp only [FindTable]
    split <;> exact hmiss
  | succ fuel ih =>
    intro db start hmiss
    simp only [FindTable]
    rcases hc : alookup db.tables start with _ | t
    · simp only [hc]
      rcases hn : schema.tables start with _ | native
      · simpa using hmiss
      · simp only [hn]
        rcases hkr : native.keyInfo.refTable with _ | keyRef
        · rcases hvr2 : native.valueInfo.refTable with _ | valueRef
          · have hne : start ≠ name := by
              intro he; subst he
              rw [hschema] at hn
              obtain rfl := Option.some.inj hn
              rw [hvr] at hvr2
              exact Option.noConfusion hvr2
            have hne2 : ¬ (name = start) := fun he => hne he.symm
            simp [hkr, hvr2, alookup, hne2, hmiss]
          · by_cases hv : native.valueInfo.dataType = .Void
            · simp [hkr, hvr2, hv, hmiss]
            · rcases hrec : FindTable schema fuel db valueRef with ⟨res, db2⟩
              have h2 : alookup db2.tables name = none := by
                have hx := ih db valueRef hmiss
                rw [hrec] at hx
                exact hx
              have hne : start ≠ name := by
                intro he; subst he
                rw [hschema] at hn
                obtain rfl := Option.some.inj hn
                exact hv hvt
              have hne2 : ¬ (name = start) := fun he => hne he.symm
              rcases res with e | tv0
              · simp [hkr, hvr2, hv, hrec, h2]
              · simp [hkr, hvr2, hv, hrec, alookup, hne2, h2]
        · by_cases hkv : native.keyInfo.dataType = .Void
          · simp [hkr, hkv, hmiss]
          · rcases hreck : FindTable schema fuel db keyRef with ⟨resk, db1⟩
            have h1 : alookup db1.tables name = none := by
              have hx := ih db keyRef hmiss
              rw [hreck] at hx
              exact hx
            rcases resk with e | tk
            · simp [hkr, hkv, hreck, h1]
            · rcases hvr2 : native.valueInfo.refTable with _ | valueRef
              · have hne : start ≠ name := by
                  intro he; subst he
                  rw [hschema] at hn
                  obtain rfl := Option.some.inj hn
                  rw [hvr] at hvr2
                  exact Option.noConfusion hvr2
                have hne2 : ¬ (name = start) := fun he => hne he.symm
                simp [hkr, hkv, hreck, hvr2, alookup, hne2, h1]
              · by_cases hv : native.valueInfo.dataType = .Void
                · simp [hkr, hkv, hreck, hvr2, hv, h1]
                · rcases hrecv : FindTable schema fuel db1 valueRef with ⟨resv, db2⟩
                  have h2 : alookup db2.tables name = none := by
                    have hx := ih db1 valueRef h1
                    rw [hrecv] at hx
                    exact hx
                  have hne : start ≠ name := by
                    intro he; subst he
                    rw [hschema] at hn
                    obtain rfl := Option.some.inj hn
                    exact hv hvt
                  have hne2 : ¬ (name = start) := fun he => hne he.symm
                  rcases resv with e | tv2
                  · simp [hkr, hkv, hreck, hvr2, hv, hrecv, h2]
                  · simp [hkr, hkv, hreck, hvr2, hv, hrecv, alookup, hne2, h2]
    · simpa [hc] using hmiss

/-- C9: when a table's key or value descriptor carries a reference-table
pointer while its declared primitive type is Void, FindTable returns the
reference-to-void error instead of a Table, and the name is never inserted
into the cache.  For a corrupt key descriptor the state is returned entirely
unchanged; the same holds for a corrupt value descriptor when the key is not
itself a reference; and for a corrupt value descriptor in general the call
never succeeds and never caches the name, whatever the key's reference chain
did. -/
theorem FindTable_reference_to_void (schema : NativeSchema) (name : String)
    (nt : NativeTable) (hschema : schema.tables name = some nt) :
    (∀ r : String, nt.keyInfo.refTable = some r → nt.keyInfo.dataType = .Void →
      ∀ fuel db, alookup db.tables name = none →
        FindTable schema (fuel + 1) db name = (.error (.referenceToVoid name), db)) ∧
    (nt.keyInfo.refTable = none →
      ∀ r : String, nt.valueInfo.refTable = some r → nt.valueInfo.dataType = .Void →
      ∀ fuel db, alookup db.tables name = none →
        FindTable schema (fuel + 1) db name = (.error (.referenceToVoid name), db)) ∧
    (∀ r : String, nt.valueInfo.refTable = some r → nt.valueInfo.dataType = .Void →
      ∀ fuel db, alookup db.tables name = none →
        (∀ t db1, FindTable schema fuel db name ≠ (.ok t, db1)) ∧
        alookup (FindTable schema fuel db name).2.tables name = none) := by
  refine ⟨?_, ?_, ?_⟩
  · intro r hkr hkt fuel db hmiss
    simp [FindTable, hmiss, hschema, hkr, hkt]
  · intro hkr r hvr hvt fuel db hmiss
    simp [FindTable, hmiss, hschema, hkr, hvr, hvt]
  · intro r hvr hvt fuel db hmiss
    have hpres :=
      FindTable_preserves_missing schema name nt r hschema hvr hvt fuel db name hmiss
    refine ⟨?_, hpres⟩
    intro t db1 heq
    have hcached := FindTable_ok_cached schema fuel db name t db1 heq
    rw [heq] at hpres
    simp only at hpres
    rw [hcached] at hpres
    exact Option.noConfusion hpres

/-- C9 witness: the corrupt example table with a void key reference,
resolved from the empty cache, yields the reference-to-void error with the
cache unchanged. -/
theorem FindTable_reference_to_void_witness :
    FindTable exSchema 1 exDB0 "BadKey" = (.error (.referenceToVoid "BadKey"), exDB0) :=
  (FindTable_reference_to_void exSchema "BadKey" ⟨⟨.Void, 0, some "A"⟩, ⟨.Void, 0, none⟩⟩
    (by decide)).1 "A" (by decide) (by decide) 0 exDB0 (by decide)

/-! ## C1 -/

/-- A successful walk over the trailing segments of a dotted path resolves a
chain of segment columns; the returned column is the last of the chain, the
returned flag is the disjunction of the starting flag with the segment
columns' vector flags, and at most one vector occurs among the starting flag
and the chain. -/
theorem walkSegments_ok (schema : NativeSchema) (fuel : Nat) :
    ∀ (segs : List String) (db : DBState) (c : Column) (flag : Bool)
      (out : Column × Bool) (db1 : DBState),
      walkSegments schema fuel db c flag segs = (.ok out, db1) →
      ∃ cols : List Column,
        Walks schema fuel db c segs cols db1 ∧
        out.2 = (flag || cols.any fun x => x.isVector) ∧
        out.1 = (c :: cols).getLast (List.cons_ne_nil c cols) ∧
        flag.toNat + (cols.countP fun x => x.isVector) ≤ 1 := by
  intro segs
  induction segs with
  | nil =>
    intro db c flag out db1 h
    simp only [walkSegments, Prod.mk.injEq, Except.ok.injEq] at h
    obtain ⟨h1, h2⟩ := h
    subst h2
    subst h1
    refine ⟨[], Walks.nil db c, by simp, by simp, ?_⟩
    cases flag <;> simp
  | cons seg rest ih =>
    intro db c flag out db1 h
    simp only [walkSegments] at h
    split at h
    · exact absurd h (by simp)
    · rename_i refName hvt
      split at h
      · exact absurd h (by simp)
      · rename_i refTable hlt
        split at h
        · exact absurd h (by simp)
        · rename_i c1 dbx hfc
          split at h
          · split at h
            · exact absurd h (by simp)
            · rename_i hcv hflag
              have hflag2 : flag = false := by
                cases flag
                · rfl
                · exact absurd rfl hflag
              subst hflag2
              obtain ⟨cols1, hw, hout2, hout1, hcount⟩ := ih dbx c1 true out db1 h
              refine ⟨c1 :: cols1,
                Walks.cons db c refName refTable seg rest c1 dbx cols1 db1 hvt hlt hfc hw,
                ?_, ?_, ?_⟩
              · rw [hout2]
                simp [List.any_cons, hcv]
              · rw [hout1, List.getLast_cons (List.cons_ne_nil c1 cols1)]
              · have h1 : (1 : Nat) + cols1.countP (fun x => x.isVector) ≤ 1 := by
                  simpa using hcount
                rw [List.countP_cons_of_pos _ _ (by simpa using hcv)]
                simp only [Bool.toNat_false]
                omega
          · rename_i hcv
            have hcv2 : c1.isVector = false := by
              cases hx : c1.isVector
              · rfl
              · exact absurd hx hcv
            obtain ⟨cols1, hw, hout2, hout1, hcount⟩ := ih dbx c1 flag out db1 h
            refine ⟨c1 :: cols1,
              Walks.cons db c refName refTable seg rest c1 dbx cols1 db1 hvt hlt hfc hw,
              ?_, ?_, ?_⟩
            · rw [hout2]
              simp [List.any_cons, hcv2]
            · rw [hout1, List.getLast_cons (List.cons_ne_nil c1 cols1)]
            · rw [List.countP_cons_of_neg _ _ (by simp [hcv2])]
              exact hcount

/-- C1 (amended): a successfully resolved multi-segment dotted path yields a
composite Column whose value type comes from the last-resolved segment,
whose vector-ness is the OR of the vector-ness of all segments, and whose
reference table comes from the first segment's column (not the last's, which
the source never copies into the composite); a walk that would contain a
second vector segment never resolves, as witnessed by the at-most-one-vector
bound on every successful walk. -/
theorem FindColumn_composite (schema : NativeSchema) (fuel : Nat) (db : DBState)
    (table : Table) (name first : String) (rest : List String) (c : Column) (db1 : DBState)
    (hmiss : alookup db.columns (table.name, name) = none)
    (hdot : hasDot name = true)
    (hsplit : splitOnDot name = first :: rest)
    (h : FindColumn schema fuel db table name = (.ok c, db1)) :
    ∃ (c0 : Column) (dbA : DBState) (cols : List Column) (dbB : DBState),
      findColumn schema fuel db table first = (.ok c0, dbA) ∧
      Walks schema fuel dbA c0 rest cols dbB ∧
      c.valueType = ((c0 :: cols).getLast (List.cons_ne_nil c0 cols)).valueType ∧
      c.isVector = (c0.isVector || cols.any fun x => x.isVector) ∧
      c.valueTable = c0.valueTable ∧
      c0.isVector.toNat + (cols.countP fun x => x.isVector) ≤ 1 ∧
      c.tableName = table.name ∧ c.name = name := by
  simp only [FindColumn, hmiss, hdot, Bool.true_eq_false, if_false, hsplit] at h
  split at h
  · exact absurd h (by simp)
  · rename_i c0 dbA hfc
    split at h
    · exact absurd h (by simp)
    · rename_i clast isVec dbB hws
      split at h
      · exact absurd h (by simp)
      · rename_i info hsc
        obtain ⟨h1, h2⟩ := Prod.mk.injEq .. ▸ h
        obtain rfl := Except.ok.inj h1
        subst h2
        obtain ⟨cols, hw, hout2, hout1, hcount⟩ :=
          walkSegments_ok schema fuel rest dbA c0 c0.isVector (clast, isVec) dbB hws
        refine ⟨c0, dbA, cols, dbB, hfc, hw, ?_, ?_, rfl, ?_, rfl, rfl⟩
        · simpa using congrArg Column.valueType hout1
        · simpa using hout2
        · simpa using hcount

/-- C1 counterexample: on the concrete schema the composite for A."r.v"
carries the reference table of the first segment (column "r", which
references B) while the last-resolved segment (B."v") carries none, so the
claim that the composite takes its reference table from the last-resolved
segment is false. -/
theorem FindColumn_refTable_not_last_segment :
    FindColumn exSchema 3 exDB0 exTableA "r.v" = (.ok exColRV, exDB3) ∧
    exColRV.valueTable = some "B" ∧
    (findColumn exSchema 3 exDB1 exTableB "v").1 = .ok exColV ∧
    exColV.valueTable = none ∧
    (some "B" : Option String) ≠ none := by
  decide

/-- C1 witness: the amended composite theorem applied to the concrete
resolution of A."r.v". -/
theorem FindColumn_composite_witness :
    ∃ (c0 : Column) (dbA : DBState) (cols : List Column) (dbB : DBState),
      findColumn exSchema 3 exDB0 exTableA "r" = (.ok c0, dbA) ∧
      Walks exSchema 3 dbA c0 ["v"] cols dbB ∧
      exColRV.valueType = ((c0 :: cols).getLast (List.cons_ne_nil c0 cols)).valueType ∧
      exColRV.isVector = (c0.isVector || cols.any fun x => x.isVector) ∧
      exColRV.valueTable = c0.valueTable ∧
      c0.isVector.toNat + (cols.countP fun x => x.isVector) ≤ 1 ∧
      exColRV.tableName = exTableA.name ∧ exColRV.name = "r.v" :=
  FindColumn_composite exSchema 3 exDB0 exTableA "r.v" "r" ["v"] exColRV exDB3
    (by decide) (by decide) (by decide) (by decide)

end Grngo
